import Mathlib

/-!
# Route task and status discovery of kops (spotinst AWS tasks)

Shallow embedding of

* `upup/pkg/fi/cloudup/spotinsttasks/aws/route.go`
  (`Route.Find`, `Route.CheckChanges`, `Route.Render`, `checkNotNil`), and
* `cmd/kops/status_discovery.go`
  (`cloudDiscoveryStatusStore.GetApiIngressStatus`).

Conventions of the embedding.

* A Go pointer `*T` is `Option T`; `nil` is `none`.
* A Go `error` is `Option GoError`; a function returning `error` or
  `(v, error)` and able to abort the process returns an `Outcome`.
* A nil dereference is `Outcome.panic`, `glog.Fatal`/`glog.Fatalf` is
  `Outcome.fatal` carrying the logged text.
* Calls to the cloud are answered by function-valued fields of the cloud
  record and every call made by `Render` is written to a trace.
* Elements of SDK slices of pointers (`[]*ec2.RouteTable`, `[]*ec2.Route`)
  are taken to be non-nil, as the SDK delivers them.
* The `*fi.Context` / `*spotinst.Target` argument is represented by the
  `awsup.AWSCloud` reached through the two type assertions
  `.Cloud.(spotinst.Cloud).Cloud().(awsup.AWSCloud)`.
-/

namespace Kops

/-! ## Errors and outcomes -/

/-- `ec2.CreateRouteOutput`: `Return` is a `*bool`. -/
structure CreateRouteOutput where
  Return : Option Bool
  deriving DecidableEq, Repr

/-- Modelled from the spec: the constructors `requiredField` and
`cannotChangeField` stand for `fi.RequiredField(key)` and
`fi.CannotChangeField(key)`, whose bodies live in `upup/pkg/fi` (the spec
calls them the sentinel error constructors required-field(name) and
cannot-change-field(name)). The other constructors are `fmt.Errorf` calls,
kept with their format string, and errors handed back by collaborators. -/
inductive GoError where
  /-- `fi.RequiredField(key)` -/
  | requiredField (key : String)
  /-- `fi.CannotChangeField(key)` -/
  | cannotChangeField (key : String)
  /-- `fmt.Errorf(format)` without arguments -/
  | errorf (format : String)
  /-- `fmt.Errorf(format, err)` with one error argument -/
  | errorfErr (format : String) (cause : GoError)
  /-- `fmt.Errorf(format, s)` with one string argument (`%q`, `%T`) -/
  | errorfStr (format : String) (arg : String)
  /-- `fmt.Errorf(format, response)` with the `CreateRoute` response -/
  | errorfResp (format : String) (response : CreateRouteOutput)
  /-- an error value produced outside the modelled code (SDK, collaborator) -/
  | foreign (text : String)
  deriving DecidableEq, Repr

/-- Result of running a Go function that may return an error, abort the
process through `glog.Fatal`, or panic on a nil dereference. -/
inductive Outcome (α : Type) where
  | ok (v : α)
  | error (err : GoError)
  | fatal (msg : String)
  | panic
  deriving DecidableEq, Repr

namespace Outcome

/-- Sequencing: the first abnormal outcome ends the run. -/
def bind {α β : Type} (m : Outcome α) (f : α → Outcome β) : Outcome β :=
  match m with
  | ok v => f v
  | error err => error err
  | fatal msg => fatal msg
  | panic => panic

instance : Monad Outcome where
  pure := ok
  bind := bind

/-- Dereference of a Go pointer: `nil` panics. -/
def deref {α : Type} (p : Option α) : Outcome α :=
  match p with
  | some v => ok v
  | none => panic

end Outcome

/-- `aws.StringValue`: the pointed-to string, or `""` for nil. -/
def aws.StringValue (s : Option String) : String :=
  match s with
  | some v => v
  | none => ""

/-- `aws.BoolValue`: the pointed-to bool, or `false` for nil. -/
def aws.BoolValue (b : Option Bool) : Bool :=
  match b with
  | some v => v
  | none => false

/-! ## Data model of `route.go` -/

/-- Task `RouteTable`; `route.go` reads and writes only its `ID`. -/
structure RouteTable where
  ID : Option String
  deriving DecidableEq, Repr

/-- Task `InternetGateway`; `route.go` reads and writes only its `ID`. -/
structure InternetGateway where
  ID : Option String
  deriving DecidableEq, Repr

/-- Task `NatGateway`; `route.go` reads and writes only its `ID`. -/
structure NatGateway where
  ID : Option String
  deriving DecidableEq, Repr

/-- The task `Route` of `route.go`. `Lifecycle` is a `*fi.Lifecycle`, a
pointer to a string. -/
structure Route where
  Name : Option String
  Lifecycle : Option String
  RouteTable : Option Kops.RouteTable
  CIDR : Option String
  InternetGateway : Option Kops.InternetGateway
  NatGateway : Option Kops.NatGateway
  deriving DecidableEq, Repr

/-- `fi.RequiredField` -/
def fi.RequiredField (key : String) : GoError := GoError.requiredField key

/-- `fi.CannotChangeField` -/
def fi.CannotChangeField (key : String) : GoError := GoError.cannotChangeField key

/-- `Route.CheckChanges(a, e, changes)` (the receiver is unused). -/
def Route.CheckChanges (a e changes : Option Route) : Outcome Unit :=
  match a with
  | none =>
    match e with
    | none => Outcome.panic
    | some e =>
      if e.RouteTable.isNone then
        Outcome.error (fi.RequiredField "RouteTable")
      else if e.CIDR.isNone then
        Outcome.error (fi.RequiredField "CIDR")
      else
        let targetCount := 0
        let targetCount := if e.InternetGateway.isSome then targetCount + 1 else targetCount
        let targetCount := if e.NatGateway.isSome then targetCount + 1 else targetCount
        if targetCount = 0 then
          Outcome.error (GoError.errorf "InternetGateway or NatGateway is required")
        else if targetCount ≠ 1 then
          Outcome.error (GoError.errorf "Cannot set more than 1 InternetGateway or NatGateway")
        else
          Outcome.ok ()
  | some _ =>
    match changes with
    | none => Outcome.panic
    | some changes =>
      if changes.RouteTable.isSome then
        Outcome.error (fi.CannotChangeField "RouteTable")
      else if changes.CIDR.isSome then
        Outcome.error (fi.CannotChangeField "CIDR")
      else
        Outcome.ok ()

/-! ## The EC2 capability used by `route.go` -/

/-- `ec2.Route`, the fields read by `Find`. -/
structure Ec2Route where
  DestinationCidrBlock : Option String
  GatewayId : Option String
  NatGatewayId : Option String
  State : Option String
  deriving DecidableEq, Repr

/-- `ec2.RouteTable`, the fields read by `Find`. -/
structure Ec2RouteTable where
  RouteTableId : Option String
  Routes : List Ec2Route
  deriving DecidableEq, Repr

/-- `ec2.DescribeRouteTablesInput` -/
structure DescribeRouteTablesInput where
  RouteTableIds : List (Option String)
  deriving DecidableEq, Repr

/-- `ec2.DescribeRouteTablesOutput` -/
structure DescribeRouteTablesOutput where
  RouteTables : List Ec2RouteTable
  deriving DecidableEq, Repr

/-- `ec2.CreateRouteInput`, the fields set by `Render`. -/
structure CreateRouteInput where
  RouteTableId : Option String
  DestinationCidrBlock : Option String
  GatewayId : Option String
  NatGatewayId : Option String
  deriving DecidableEq, Repr

/-- `ec2.ReplaceRouteInput`, the fields set by `Render`. -/
structure ReplaceRouteInput where
  RouteTableId : Option String
  DestinationCidrBlock : Option String
  GatewayId : Option String
  NatGatewayId : Option String
  deriving DecidableEq, Repr

/-- The `awsup.AWSCloud` behind the context or target, as far as `route.go`
uses it: the three EC2 calls, each answering with the Go pair
`(response, err)`, and `NatGateway.waitAvailable(cloud)`, a method defined
next to the `NatGateway` task that returns an `error`. -/
structure AWSCloud where
  DescribeRouteTables : DescribeRouteTablesInput → Option DescribeRouteTablesOutput × Option GoError
  CreateRoute : CreateRouteInput → Option CreateRouteOutput × Option GoError
  ReplaceRoute : ReplaceRouteInput → Option Unit × Option GoError
  waitAvailable : NatGateway → Option GoError

/-! ## `Route.Find` -/

/-- The loop `for _, r := range rt.Routes` of `Find`, which returns from
inside at the first route whose destination equals `*e.CIDR`; running off
the end reaches the final `return nil, nil`. -/
def Route.Find.loop (e : Route) (cidr : String) (rt : Ec2RouteTable) :
    List Ec2Route → Outcome (Option Route)
  | [] => Outcome.ok none
  | r :: rest =>
    if aws.StringValue r.DestinationCidrBlock ≠ cidr then
      Route.Find.loop e cidr rt rest
    else
      let actual : Route :=
        { Name := e.Name
          Lifecycle := none
          RouteTable := some (Kops.RouteTable.mk rt.RouteTableId)
          CIDR := r.DestinationCidrBlock
          InternetGateway := none
          NatGateway := none }
      let actual :=
        if r.GatewayId.isSome then
          { actual with InternetGateway := some (Kops.InternetGateway.mk r.GatewayId) }
        else actual
      let actual :=
        if r.NatGatewayId.isSome then
          { actual with NatGateway := some (Kops.NatGateway.mk r.NatGatewayId) }
        else actual
      let actual :=
        if aws.StringValue r.State = "blackhole" then
          { actual with InternetGateway := none }
        else actual
      let actual := { actual with Lifecycle := e.Lifecycle }
      Outcome.ok (some actual)

/-- `Route.Find(c)`: `cloud` is the AWS cloud reached from the context. -/
def Route.Find (cloud : AWSCloud) (e : Option Route) : Outcome (Option Route) :=
  match e with
  | none => Outcome.panic
  | some e =>
    match e.RouteTable, e.CIDR with
    | some routeTable, some cidr =>
      if routeTable.ID.isNone then
        Outcome.ok none
      else
        let request : DescribeRouteTablesInput := { RouteTableIds := [routeTable.ID] }
        match cloud.DescribeRouteTables request with
        | (_, some err) => Outcome.error (GoError.errorfErr "error listing RouteTables: %v" err)
        | (none, none) => Outcome.ok none
        | (some response, none) =>
          match response.RouteTables with
          | [] => Outcome.ok none
          | [rt] => Route.Find.loop e cidr rt rt.Routes
          | _ :: _ :: _ => Outcome.fatal "found multiple RouteTables matching tags"
    | _, _ => Outcome.ok none

/-! ## `Route.Render` -/

/-- A call that leaves `Render` towards the cloud. -/
inductive Call where
  /-- `e.NatGateway.waitAvailable(cloud)` -/
  | waitAvailable (ng : NatGateway)
  /-- `EC2().CreateRoute(request)` -/
  | createRoute (request : CreateRouteInput)
  /-- `EC2().ReplaceRoute(request)` -/
  | replaceRoute (request : ReplaceRouteInput)
  deriving DecidableEq, Repr

/-- A run of effectful code: the calls made, in order, and how it ended. -/
structure Exec (α : Type) where
  trace : List Call
  out : Outcome α
  deriving DecidableEq, Repr

namespace Exec

/-- The run `r` with the calls `t` made before it. -/
def after {β : Type} (t : List Call) (r : Exec β) : Exec β :=
  { trace := t ++ r.trace, out := r.out }

/-- Sequencing: the calls of both parts, unless the first part ends the run. -/
def bind {α β : Type} (m : Exec α) (f : α → Exec β) : Exec β :=
  match m.out with
  | Outcome.ok v => after m.trace (f v)
  | Outcome.error err => { trace := m.trace, out := Outcome.error err }
  | Outcome.fatal msg => { trace := m.trace, out := Outcome.fatal msg }
  | Outcome.panic => { trace := m.trace, out := Outcome.panic }

instance : Monad Exec where
  pure v := { trace := [], out := Outcome.ok v }
  bind := bind

/-- A step without cloud calls. -/
def lift {α : Type} (o : Outcome α) : Exec α := { trace := [], out := o }

/-- `return err` with a non-nil error. -/
def fail {α : Type} (err : GoError) : Exec α := lift (Outcome.error err)

/-- One call to the cloud, recorded, with the answer the cloud gives. -/
def call {α : Type} (c : Call) (answer : α) : Exec α :=
  { trace := [c], out := Outcome.ok answer }

end Exec

/-- `checkNotNil`: returns its argument, after `glog.Fatal` on nil. -/
def checkNotNil (s : Option String) : Outcome (Option String) :=
  match s with
  | none => Outcome.fatal "string pointer was unexpectedly nil"
  | some v => Outcome.ok (some v)

/-- `Route.Render(t, a, e, changes)`: `cloud` is the AWS cloud reached from
the target `t`; the receiver and `changes` are unused by the body. -/
def Route.Render (cloud : AWSCloud) (a e _changes : Option Route) : Exec Unit :=
  match a with
  | none => do
    let e ← Exec.lift (Outcome.deref e)
    let routeTable ← Exec.lift (Outcome.deref e.RouteTable)
    let routeTableId ← Exec.lift (checkNotNil routeTable.ID)
    let cidr ← Exec.lift (checkNotNil e.CIDR)
    let request : CreateRouteInput :=
      { RouteTableId := routeTableId, DestinationCidrBlock := cidr
        GatewayId := none, NatGatewayId := none }
    let request ←
      match e.InternetGateway, e.NatGateway with
      | none, none => Exec.fail (GoError.errorf "missing target for route")
      | some ig, _ => do
        let id ← Exec.lift (checkNotNil ig.ID)
        pure { request with GatewayId := id }
      | none, some ng => do
        match ← Exec.call (Call.waitAvailable ng) (cloud.waitAvailable ng) with
        | some err => Exec.fail err
        | none =>
          let id ← Exec.lift (checkNotNil ng.ID)
          pure { request with NatGatewayId := id }
    let (response, err) ← Exec.call (Call.createRoute request) (cloud.CreateRoute request)
    match err with
    | some err => Exec.fail (GoError.errorfErr "error creating Route: %v" err)
    | none =>
      let response ← Exec.lift (Outcome.deref response)
      if !aws.BoolValue response.Return then
        Exec.fail (GoError.errorfResp "create Route request failed: %v" response)
      else
        pure ()
  | some _ => do
    let e ← Exec.lift (Outcome.deref e)
    let routeTable ← Exec.lift (Outcome.deref e.RouteTable)
    let routeTableId ← Exec.lift (checkNotNil routeTable.ID)
    let cidr ← Exec.lift (checkNotNil e.CIDR)
    let request : ReplaceRouteInput :=
      { RouteTableId := routeTableId, DestinationCidrBlock := cidr
        GatewayId := none, NatGatewayId := none }
    let request ←
      match e.InternetGateway, e.NatGateway with
      | none, none => Exec.fail (GoError.errorf "missing target for route")
      | some ig, _ => do
        let id ← Exec.lift (checkNotNil ig.ID)
        pure { request with GatewayId := id }
      | none, some ng => do
        match ← Exec.call (Call.waitAvailable ng) (cloud.waitAvailable ng) with
        | some err => Exec.fail err
        | none =>
          let id ← Exec.lift (checkNotNil ng.ID)
          pure { request with NatGatewayId := id }
    let (_, err) ← Exec.call (Call.replaceRoute request) (cloud.ReplaceRoute request)
    match err with
    | some err => Exec.fail (GoError.errorfErr "error updating Route: %v" err)
    | none => pure ()

/-! ## `status_discovery.go` -/

/-- `kops.Cluster`, of which the dispatcher reads the name. -/
structure Cluster where
  Name : String
  deriving DecidableEq, Repr

/-- `kops.ApiIngressStatus` -/
structure ApiIngressStatus where
  Hostname : String
  deriving DecidableEq, Repr

/-- `elb.LoadBalancerDescription`, of which the dispatcher reads `DNSName`. -/
structure LoadBalancerDescription where
  DNSName : Option String
  deriving DecidableEq, Repr

/-- The value returned by `cloudup.BuildCloud`, seen through the type
assertions of the dispatcher: `asGCE`, `asAWS` and `asSpotinst` say whether
the assertion to `gce.GCECloud`, `awsup.AWSCloud`, `spotinst.Cloud` succeeds
and, if so, how that backend answers; `typeName` is what `%T` prints.
For AWS the answer is that of
`awstasks.FindLoadBalancerByNameTag(awsCloud, name)`, the Go pair
`(lb, err)`. A slice result is a list, the nil slice being `[]`. -/
structure Cloud where
  asGCE : Option (Cluster → List ApiIngressStatus × Option GoError)
  asAWS : Option (String → Option LoadBalancerDescription × Option GoError)
  asSpotinst : Option (Cluster → List ApiIngressStatus × Option GoError)
  typeName : String

/-- `cloudDiscoveryStatusStore.GetApiIngressStatus(cluster)`; `BuildCloud`
is `cloudup.BuildCloud`, answering with the Go pair `(cloud, err)`, and the
result is the Go pair `(ingresses, err)`. -/
def GetApiIngressStatus (BuildCloud : Cluster → Option Cloud × Option GoError)
    (cluster : Cluster) : List ApiIngressStatus × Option GoError :=
  match BuildCloud cluster with
  | (_, some err) => ([], some err)
  | (cloud, none) =>
    match cloud.bind Cloud.asGCE with
    | some gceCloud => gceCloud cluster
    | none =>
      match cloud.bind Cloud.asAWS with
      | some FindLoadBalancerByNameTag =>
        let name := "api." ++ cluster.Name
        match FindLoadBalancerByNameTag name with
        | (none, _) => ([], none)
        | (some _, some err) => ([], some (GoError.errorfErr "error looking for AWS ELB: %v" err))
        | (some lb, none) =>
          let lbDnsName := aws.StringValue lb.DNSName
          if lbDnsName = "" then
            ([], some (GoError.errorfStr "Found ELB %q, but it did not have a DNSName" name))
          else
            ([] ++ [ApiIngressStatus.mk lbDnsName], none)
      | none =>
        match cloud.bind Cloud.asSpotinst with
        | some spotinstCloud => spotinstCloud cluster
        | none =>
          ([], some (GoError.errorfStr "API Ingress Status not implemented for %T"
            (match cloud with
             | some c => c.typeName
             | none => "<nil>")))

/-! ## Vocabulary of the statements -/

/-- The immutable fields of a route that a `changes` value has set, in the
order of declaration (the reading of "the changed immutable field(s)"). -/
def Spec.changedImmutableFields (changes : Route) : List String :=
  (if changes.RouteTable.isSome then ["RouteTable"] else []) ++
  (if changes.CIDR.isSome then ["CIDR"] else [])

/-- The fields that a cannot-change-field error names; no other error
names a field as unchangeable. -/
def Spec.cannotChangeNames (err : GoError) : List String :=
  match err with
  | GoError.cannotChangeField key => [key]
  | _ => []

/-! ## Example inputs and closed forms used by the statements -/

/-- A route with every field unset but the two immutable ones, used as a
`changes` value in which both `RouteTable` and `CIDR` differ. -/
def Examples.changesBoth : Route :=
  { Name := none, Lifecycle := none
    RouteTable := some (RouteTable.mk (some "rtb-2"))
    CIDR := some "10.1.0.0/16"
    InternetGateway := none, NatGateway := none }

/-- An existing route through an internet gateway. -/
def Examples.routeIgw : Route :=
  { Name := some "r", Lifecycle := none
    RouteTable := some (RouteTable.mk (some "rtb-1"))
    CIDR := some "10.0.0.0/16"
    InternetGateway := some (InternetGateway.mk (some "igw-1"))
    NatGateway := none }

/-- A cloud whose `DescribeRouteTables` answers with the given route tables
and whose other calls succeed. -/
def Examples.cloudWith (tables : List Ec2RouteTable) : AWSCloud :=
  { DescribeRouteTables := fun _ => (some (DescribeRouteTablesOutput.mk tables), none)
    CreateRoute := fun _ => (some (CreateRouteOutput.mk (some true)), none)
    ReplaceRoute := fun _ => (some (), none)
    waitAvailable := fun _ => none }

/-- A desired route for `10.0.0.0/16` in table `rtb-1` through `nat-1`. -/
def Examples.routeNat : Route :=
  { Name := some "r", Lifecycle := some "Sync"
    RouteTable := some (RouteTable.mk (some "rtb-1"))
    CIDR := some "10.0.0.0/16"
    InternetGateway := none
    NatGateway := some (NatGateway.mk (some "nat-1")) }

/-- A blackhole route of the cloud that still stores the identifier of a
deleted NAT gateway. -/
def Examples.blackholeNat : Ec2Route :=
  { DestinationCidrBlock := some "10.0.0.0/16", GatewayId := none
    NatGatewayId := some "nat-0", State := some "blackhole" }

/-- Two live routes of one table with the same destination block. -/
def Examples.twoRows : List Ec2Route :=
  [ { DestinationCidrBlock := some "10.0.0.0/16", GatewayId := none
      NatGatewayId := some "nat-2", State := some "active" },
    { DestinationCidrBlock := some "10.0.0.0/16", GatewayId := some "igw-1"
      NatGatewayId := none, State := some "active" } ]

/-- Whether a call is one of the two mutating calls of `Render`. -/
def Call.isMutating (c : Call) : Bool :=
  match c with
  | Call.waitAvailable _ => false
  | Call.createRoute _ => true
  | Call.replaceRoute _ => true

/-- The `GatewayId` carried by the request of a mutating call. -/
def Call.gatewayId (c : Call) : Option String :=
  match c with
  | Call.waitAvailable _ => none
  | Call.createRoute request => request.GatewayId
  | Call.replaceRoute request => request.GatewayId

/-- The `NatGatewayId` carried by the request of a mutating call. -/
def Call.natGatewayId (c : Call) : Option String :=
  match c with
  | Call.waitAvailable _ => none
  | Call.createRoute request => request.NatGatewayId
  | Call.replaceRoute request => request.NatGatewayId

/-- How `Render` turns the answer of `CreateRoute` into its result (the
statements after the call on the creation path), in closed form;
`render_create_ig` and `render_create_nat` prove that `Render` does so. -/
def Route.Render.createResult (answer : Option CreateRouteOutput × Option GoError) :
    Outcome Unit :=
  match answer with
  | (_, some err) => Outcome.error (GoError.errorfErr "error creating Route: %v" err)
  | (none, none) => Outcome.panic
  | (some response, none) =>
    if aws.BoolValue response.Return then Outcome.ok ()
    else Outcome.error (GoError.errorfResp "create Route request failed: %v" response)

/-- How `Render` turns the answer of `ReplaceRoute` into its result (the
statements after the call on the update path), in closed form;
`render_replace_ig` and `render_replace_nat` prove that `Render` does so. -/
def Route.Render.replaceResult (answer : Option Unit × Option GoError) : Outcome Unit :=
  match answer with
  | (_, some err) => Outcome.error (GoError.errorfErr "error updating Route: %v" err)
  | (_, none) => Outcome.ok ()

/-- A cloud whose `CreateRoute` answers without transport error and with
the `Return` flag false. -/
def Examples.cloudRefusing : AWSCloud :=
  { DescribeRouteTables := fun _ => (none, none)
    CreateRoute := fun _ => (some (CreateRouteOutput.mk (some false)), none)
    ReplaceRoute := fun _ => (some (), none)
    waitAvailable := fun _ => none }

/-- A desired route without target whose route table has no ID yet. -/
def Examples.routeNoTargetNoId : Route :=
  { Name := some "r", Lifecycle := none
    RouteTable := some (RouteTable.mk none)
    CIDR := some "10.0.0.0/16"
    InternetGateway := none, NatGateway := none }

/-- A desired route without target, all identifiers set. -/
def Examples.routeNoTarget : Route :=
  { Name := some "r", Lifecycle := none
    RouteTable := some (RouteTable.mk (some "rtb-1"))
    CIDR := some "10.0.0.0/16"
    InternetGateway := none, NatGateway := none }

/-- A cloud in which the wait for a NAT gateway times out. -/
def Examples.cloudWaitFails : AWSCloud :=
  { DescribeRouteTables := fun _ => (none, none)
    CreateRoute := fun _ => (some (CreateRouteOutput.mk (some true)), none)
    ReplaceRoute := fun _ => (some (), none)
    waitAvailable := fun _ => some (GoError.foreign "ResourceNotReady: exceeded wait attempts") }

/-- A `BuildCloud` that resolves every cluster to an AWS cloud whose
load-balancer lookup fails: no load balancer, and an error. -/
def Examples.buildFailingAws (_ : Cluster) : Option Cloud × Option GoError :=
  (some
    { asGCE := none
      asAWS := some (fun _ => (none, some (GoError.foreign "RequestError: send request failed")))
      asSpotinst := none
      typeName := "*awsup.awsCloudImplementation" },
   none)

/-! ## `CheckChanges` -/

/-- Claim C1. On creation (`a` nil) with `RouteTable` and `CIDR` set,
`CheckChanges` returns the error "InternetGateway or NatGateway is required"
when neither target is set and "Cannot set more than 1 InternetGateway or
NatGateway" when both are set, for every `changes` (nil included). -/
theorem C1_checkChanges_create_target (e : Route) (changes : Option Route)
    (hrt : e.RouteTable ≠ none) (hcidr : e.CIDR ≠ none) :
    (e.InternetGateway = none → e.NatGateway = none →
      Route.CheckChanges none (some e) changes =
        Outcome.error (GoError.errorf "InternetGateway or NatGateway is required")) ∧
    (e.InternetGateway ≠ none → e.NatGateway ≠ none →
      Route.CheckChanges none (some e) changes =
        Outcome.error
          (GoError.errorf "Cannot set more than 1 InternetGateway or NatGateway")) := by
  obtain ⟨name, lifecycle, rt, cidr, ig, ng⟩ := e
  cases rt <;> cases cidr <;> cases ig <;> cases ng <;>
    simp_all [Route.CheckChanges]

/-- Witness of C1 at a route with both targets set. -/
theorem C1_checkChanges_create_target_witness :
    Route.CheckChanges none
        (some { Name := some "r", Lifecycle := none
                RouteTable := some (RouteTable.mk (some "rtb-1"))
                CIDR := some "0.0.0.0/0"
                InternetGateway := some (InternetGateway.mk (some "igw-1"))
                NatGateway := some (NatGateway.mk (some "nat-1")) }) none =
      Outcome.error
        (GoError.errorf "Cannot set more than 1 InternetGateway or NatGateway") :=
  (C1_checkChanges_create_target
    { Name := some "r", Lifecycle := none
      RouteTable := some (RouteTable.mk (some "rtb-1"))
      CIDR := some "0.0.0.0/0"
      InternetGateway := some (InternetGateway.mk (some "igw-1"))
      NatGateway := some (NatGateway.mk (some "nat-1")) } none
    (by simp) (by simp)).2 (by simp) (by simp)

/-- Claim C2 as stated fails: with `a` present and both `RouteTable` and
`CIDR` set in `changes`, the changed immutable fields are `RouteTable` and
`CIDR`, but the error returned is the cannot-change-field error for
`RouteTable` alone. -/
theorem C2_checkChanges_update_both_counterexample :
    Spec.changedImmutableFields Examples.changesBoth = ["RouteTable", "CIDR"] ∧
    Route.CheckChanges (some Examples.routeIgw) (some Examples.routeIgw)
        (some Examples.changesBoth) =
      Outcome.error (GoError.cannotChangeField "RouteTable") ∧
    ¬ ∃ err, Route.CheckChanges (some Examples.routeIgw) (some Examples.routeIgw)
        (some Examples.changesBoth) = Outcome.error err ∧
      Spec.cannotChangeNames err = Spec.changedImmutableFields Examples.changesBoth := by
  refine ⟨by decide, by decide, ?_⟩
  rintro ⟨err, h1, h2⟩
  have h : Route.CheckChanges (some Examples.routeIgw) (some Examples.routeIgw)
      (some Examples.changesBoth) =
      Outcome.error (GoError.cannotChangeField "RouteTable") := by decide
  rw [h] at h1
  injection h1 with h1
  subst h1
  revert h2
  decide

/-- Claim C2, amended. On update (`a` present) `CheckChanges` returns the
cannot-change-field error for `RouteTable` whenever `changes` sets
`RouteTable` (also when it sets `CIDR` too), and the cannot-change-field
error for `CIDR` when `changes` sets `CIDR` and not `RouteTable`; so when at
least one immutable field is set it fails with the error for the first
changed immutable field, whatever `e` and the fields `InternetGateway` and
`NatGateway` of `changes` hold. -/
theorem C2_checkChanges_update_immutable (a : Route) (e : Option Route) (changes : Route)
    (h : changes.RouteTable ≠ none ∨ changes.CIDR ≠ none) :
    (changes.RouteTable ≠ none →
      Route.CheckChanges (some a) e (some changes) =
        Outcome.error (GoError.cannotChangeField "RouteTable")) ∧
    (changes.RouteTable = none →
      Route.CheckChanges (some a) e (some changes) =
        Outcome.error (GoError.cannotChangeField "CIDR")) ∧
    (∃ err, Route.CheckChanges (some a) e (some changes) = Outcome.error err ∧
      Spec.cannotChangeNames err = (Spec.changedImmutableFields changes).take 1) := by
  obtain ⟨name, lifecycle, rt, cidr, ig, ng⟩ := changes
  cases rt <;> cases cidr <;>
    simp_all [Route.CheckChanges, fi.CannotChangeField, Spec.cannotChangeNames,
      Spec.changedImmutableFields]

/-- Witness of the amended C2 at a `changes` value with both immutable
fields set. -/
theorem C2_checkChanges_update_immutable_witness :
    Route.CheckChanges (some Examples.routeIgw) (some Examples.routeIgw)
        (some Examples.changesBoth) =
      Outcome.error (GoError.cannotChangeField "RouteTable") :=
  (C2_checkChanges_update_immutable Examples.routeIgw (some Examples.routeIgw)
    Examples.changesBoth (Or.inl (by decide))).1 (by decide)

/-- Claim C9. On creation (`a` nil) `CheckChanges` returns the
required-field error for `RouteTable` when `e.RouteTable` is unset, the
required-field error for `CIDR` when `RouteTable` is set and `CIDR` is not,
whatever the targets hold, and it succeeds exactly when `RouteTable` and
`CIDR` are set and exactly one of `InternetGateway`, `NatGateway` is set. -/
theorem C9_checkChanges_create_required (e : Route) (changes : Option Route) :
    (e.RouteTable = none →
      Route.CheckChanges none (some e) changes =
        Outcome.error (GoError.requiredField "RouteTable")) ∧
    (e.RouteTable ≠ none → e.CIDR = none →
      Route.CheckChanges none (some e) changes =
        Outcome.error (GoError.requiredField "CIDR")) ∧
    (Route.CheckChanges none (some e) changes = Outcome.ok () ↔
      e.RouteTable ≠ none ∧ e.CIDR ≠ none ∧
        ((e.InternetGateway ≠ none ∧ e.NatGateway = none) ∨
         (e.InternetGateway = none ∧ e.NatGateway ≠ none))) := by
  obtain ⟨name, lifecycle, rt, cidr, ig, ng⟩ := e
  cases rt <;> cases cidr <;> cases ig <;> cases ng <;>
    simp [Route.CheckChanges, fi.RequiredField]

/-! ## `Find` -/

/-- Claim C3 at its failing input: the only route matching `e.CIDR` has
state "blackhole" and a stored `NatGatewayId`; `Find` returns a snapshot
whose `InternetGateway` is nil but whose `NatGateway` still refers to
`nat-0`. -/
theorem C3_find_blackhole_keeps_nat :
    Route.Find
        (Examples.cloudWith [Ec2RouteTable.mk (some "rtb-1") [Examples.blackholeNat]])
        (some Examples.routeNat) =
      Outcome.ok (some
        { Name := some "r", Lifecycle := some "Sync"
          RouteTable := some (RouteTable.mk (some "rtb-1"))
          CIDR := some "10.0.0.0/16"
          InternetGateway := none
          NatGateway := some (NatGateway.mk (some "nat-0")) }) := by
  decide

/-- Claim C4 as stated fails: the described route table holds two routes
whose destination block equals `e.CIDR`, and `Find` is not fatal; it returns
the snapshot of the first of them. -/
theorem C4_find_two_rows_counterexample :
    (Examples.twoRows.filter
        (fun r => aws.StringValue r.DestinationCidrBlock = "10.0.0.0/16")).length = 2 ∧
    Route.Find (Examples.cloudWith [Ec2RouteTable.mk (some "rtb-1") Examples.twoRows])
        (some Examples.routeNat) =
      Outcome.ok (some
        { Name := some "r", Lifecycle := some "Sync"
          RouteTable := some (RouteTable.mk (some "rtb-1"))
          CIDR := some "10.0.0.0/16"
          InternetGateway := none
          NatGateway := some (NatGateway.mk (some "nat-2")) }) ∧
    ¬ ∃ msg, Route.Find
        (Examples.cloudWith [Ec2RouteTable.mk (some "rtb-1") Examples.twoRows])
        (some Examples.routeNat) = Outcome.fatal msg := by
  refine ⟨by decide, by decide, ?_⟩
  rintro ⟨msg, h⟩
  have h2 : Route.Find
      (Examples.cloudWith [Ec2RouteTable.mk (some "rtb-1") Examples.twoRows])
      (some Examples.routeNat) =
      Outcome.ok (some
        { Name := some "r", Lifecycle := some "Sync"
          RouteTable := some (RouteTable.mk (some "rtb-1"))
          CIDR := some "10.0.0.0/16"
          InternetGateway := none
          NatGateway := some (NatGateway.mk (some "nat-2")) }) := by decide
  rw [h2] at h
  exact Outcome.noConfusion h

/-- The loop of `Find` skips the routes that do not match and stops at the
first route that does. -/
theorem Route.Find.loop_first (e : Route) (cidr : String) (rt : Ec2RouteTable)
    (pre : List Ec2Route) (r : Ec2Route) (post : List Ec2Route)
    (hpre : ∀ p ∈ pre, aws.StringValue p.DestinationCidrBlock ≠ cidr)
    (hr : aws.StringValue r.DestinationCidrBlock = cidr) :
    Route.Find.loop e cidr rt (pre ++ r :: post) = Route.Find.loop e cidr rt [r] := by
  induction pre with
  | nil => simp [Route.Find.loop, hr]
  | cons p pre ih =>
    have hp : aws.StringValue p.DestinationCidrBlock ≠ cidr := hpre p (by simp)
    have ih2 := ih (fun q hq => hpre q (by simp [hq]))
    simp [Route.Find.loop, hp, ih2]

/-- Claim C4, amended. With `RouteTable.ID` and `CIDR` set in `e` and a
`DescribeRouteTables` answer without error: `Find` ends in the fatal outcome
"found multiple RouteTables matching tags" when the answer holds more than
one route table; when it holds exactly one route table, `Find` is not fatal
however many routes of that table have destination block `e.CIDR`: it
returns the snapshot built from the first such route (name and lifecycle of
`e`, the table id, the destination block and NAT gateway id of that route,
and its gateway id unless its state is "blackhole"). -/
theorem C4_find_ambiguity (cloud : AWSCloud) (e : Route) (routeTable : RouteTable)
    (id cidr : String) (response : DescribeRouteTablesOutput)
    (hrt : e.RouteTable = some routeTable) (hid : routeTable.ID = some id)
    (hcidr : e.CIDR = some cidr)
    (hresp : cloud.DescribeRouteTables { RouteTableIds := [some id] } =
      (some response, none)) :
    (2 ≤ response.RouteTables.length →
      Route.Find cloud (some e) =
        Outcome.fatal "found multiple RouteTables matching tags") ∧
    (∀ rt pre r post, response.RouteTables = [rt] → rt.Routes = pre ++ r :: post →
      (∀ p ∈ pre, aws.StringValue p.DestinationCidrBlock ≠ cidr) →
      aws.StringValue r.DestinationCidrBlock = cidr →
      Route.Find cloud (some e) =
        Outcome.ok (some
          { Name := e.Name, Lifecycle := e.Lifecycle
            RouteTable := some (RouteTable.mk rt.RouteTableId)
            CIDR := r.DestinationCidrBlock
            InternetGateway :=
              if aws.StringValue r.State = "blackhole" then none
              else r.GatewayId.map InternetGateway.mk
            NatGateway := r.NatGatewayId.map NatGateway.mk })) := by
  constructor
  · intro hlen
    match hl : response.RouteTables, hlen with
    | _ :: _ :: _, _ => simp [Route.Find, hrt, hid, hcidr, hresp, hl]
  · intro rt pre r post hl hroutes hpre hr
    have hloop := Route.Find.loop_first e cidr rt pre r post hpre hr
    simp only [Route.Find, hrt, hid, hcidr, hresp, hl, hroutes, hloop]
    cases hg : r.GatewayId <;> cases hn : r.NatGatewayId <;>
      by_cases hb : aws.StringValue r.State = "blackhole" <;>
      simp [Route.Find.loop, hr, hg, hn, hb]

/-- Witness of the amended C4 at a table with two matching routes. -/
theorem C4_find_ambiguity_witness :
    Route.Find (Examples.cloudWith [Ec2RouteTable.mk (some "rtb-1") Examples.twoRows])
        (some Examples.routeNat) =
      Outcome.ok (some
        { Name := some "r", Lifecycle := some "Sync"
          RouteTable := some (RouteTable.mk (some "rtb-1"))
          CIDR := some "10.0.0.0/16"
          InternetGateway := none
          NatGateway := some (NatGateway.mk (some "nat-2")) }) :=
  (C4_find_ambiguity
    (Examples.cloudWith [Ec2RouteTable.mk (some "rtb-1") Examples.twoRows])
    Examples.routeNat (RouteTable.mk (some "rtb-1")) "rtb-1" "10.0.0.0/16"
    (DescribeRouteTablesOutput.mk [Ec2RouteTable.mk (some "rtb-1") Examples.twoRows])
    rfl rfl rfl rfl).2
    (Ec2RouteTable.mk (some "rtb-1") Examples.twoRows) []
    { DestinationCidrBlock := some "10.0.0.0/16", GatewayId := none
      NatGatewayId := some "nat-2", State := some "active" }
    [ { DestinationCidrBlock := some "10.0.0.0/16", GatewayId := some "igw-1"
        NatGatewayId := none, State := some "active" } ]
    rfl rfl (by simp) (by decide)

/-! ## `Render` -/

/-! ### Sequencing lemmas -/

theorem Exec.bind_eq {α β : Type} (m : Exec α) (f : α → Exec β) :
    (m >>= f) = Exec.bind m f := rfl

theorem Exec.pure_eq {α : Type} (v : α) :
    (pure v : Exec α) = Exec.lift (Outcome.ok v) := rfl

theorem Exec.bind_lift_ok {α β : Type} (v : α) (f : α → Exec β) :
    Exec.bind (Exec.lift (Outcome.ok v)) f = f v := by
  simp [Exec.bind, Exec.lift, Exec.after]

theorem Exec.bind_lift_error {α β : Type} (err : GoError) (f : α → Exec β) :
    Exec.bind (Exec.lift (Outcome.error err)) f = Exec.lift (Outcome.error err) := rfl

theorem Exec.bind_lift_fatal {α β : Type} (msg : String) (f : α → Exec β) :
    Exec.bind (Exec.lift (Outcome.fatal msg)) f = Exec.lift (Outcome.fatal msg) := rfl

theorem Exec.bind_lift_panic {α β : Type} (f : α → Exec β) :
    Exec.bind (Exec.lift Outcome.panic) f = Exec.lift Outcome.panic := rfl

theorem Exec.bind_call {α β : Type} (c : Call) (answer : α) (f : α → Exec β) :
    Exec.bind (Exec.call c answer) f = Exec.after [c] (f answer) := rfl

theorem Exec.bind_after {α β : Type} (t : List Call) (r : Exec α) (f : α → Exec β) :
    Exec.bind (Exec.after t r) f = Exec.after t (Exec.bind r f) := by
  obtain ⟨tr, o⟩ := r
  cases o <;> simp [Exec.bind, Exec.after]

theorem Exec.after_after {β : Type} (t u : List Call) (r : Exec β) :
    Exec.after t (Exec.after u r) = Exec.after (t ++ u) r := by
  simp [Exec.after]

theorem Exec.after_lift_trace {β : Type} (t : List Call) (o : Outcome β) :
    (Exec.after t (Exec.lift o)).trace = t := by
  simp [Exec.after, Exec.lift]

theorem Exec.after_lift_out {β : Type} (t : List Call) (o : Outcome β) :
    (Exec.after t (Exec.lift o)).out = o := rfl

theorem Exec.lift_trace {β : Type} (o : Outcome β) : (Exec.lift o).trace = [] := rfl

theorem Exec.lift_out {β : Type} (o : Outcome β) : (Exec.lift o).out = o := rfl

/-! ### `Render`, case by case -/

/-- `Render` panics on `e.RouteTable.ID` when `e.RouteTable` is nil. -/
theorem render_no_rt (cloud : AWSCloud) (a changes : Option Route)
    (name lifecycle cidr : Option String) (ig : Option InternetGateway)
    (ng : Option NatGateway) :
    Route.Render cloud a (some ⟨name, lifecycle, none, cidr, ig, ng⟩) changes =
      Exec.lift Outcome.panic := by
  cases a <;> simp only [Route.Render, Exec.bind_eq, Exec.pure_eq, Outcome.deref, checkNotNil,
    Exec.bind_lift_ok, Exec.bind_lift_fatal, Exec.bind_lift_panic, Exec.bind_lift_error,
    Exec.fail, Exec.bind_call, Exec.bind_after]

/-- `checkNotNil` stops `Render` when `e.RouteTable.ID` is nil. -/
theorem render_no_rt_id (cloud : AWSCloud) (a changes : Option Route)
    (name lifecycle cidr : Option String) (ig : Option InternetGateway)
    (ng : Option NatGateway) :
    Route.Render cloud a (some ⟨name, lifecycle, some ⟨none⟩, cidr, ig, ng⟩) changes =
      Exec.lift (Outcome.fatal "string pointer was unexpectedly nil") := by
  cases a <;> simp only [Route.Render, Exec.bind_eq, Exec.pure_eq, Outcome.deref, checkNotNil,
    Exec.bind_lift_ok, Exec.bind_lift_fatal, Exec.bind_lift_panic, Exec.bind_lift_error,
    Exec.fail, Exec.bind_call, Exec.bind_after]

/-- `checkNotNil` stops `Render` when `e.CIDR` is nil. -/
theorem render_no_cidr (cloud : AWSCloud) (a changes : Option Route)
    (name lifecycle : Option String) (rid : String) (ig : Option InternetGateway)
    (ng : Option NatGateway) :
    Route.Render cloud a (some ⟨name, lifecycle, some ⟨some rid⟩, none, ig, ng⟩) changes =
      Exec.lift (Outcome.fatal "string pointer was unexpectedly nil") := by
  cases a <;> simp only [Route.Render, Exec.bind_eq, Exec.pure_eq, Outcome.deref, checkNotNil,
    Exec.bind_lift_ok, Exec.bind_lift_fatal, Exec.bind_lift_panic, Exec.bind_lift_error,
    Exec.fail, Exec.bind_call, Exec.bind_after]

/-- Without a target `Render` returns "missing target for route". -/
theorem render_no_target (cloud : AWSCloud) (a changes : Option Route)
    (name lifecycle : Option String) (rid cidr : String) :
    Route.Render cloud a
        (some ⟨name, lifecycle, some ⟨some rid⟩, some cidr, none, none⟩) changes =
      Exec.lift (Outcome.error (GoError.errorf "missing target for route")) := by
  cases a <;> simp only [Route.Render, Exec.bind_eq, Exec.pure_eq, Outcome.deref, checkNotNil,
    Exec.bind_lift_ok, Exec.bind_lift_fatal, Exec.bind_lift_panic, Exec.bind_lift_error,
    Exec.fail, Exec.bind_call, Exec.bind_after]

/-- `checkNotNil` stops `Render` when the internet gateway has no ID. -/
theorem render_ig_no_id (cloud : AWSCloud) (a changes : Option Route)
    (name lifecycle : Option String) (rid cidr : String) (ng : Option NatGateway) :
    Route.Render cloud a
        (some ⟨name, lifecycle, some ⟨some rid⟩, some cidr, some ⟨none⟩, ng⟩) changes =
      Exec.lift (Outcome.fatal "string pointer was unexpectedly nil") := by
  cases a <;> simp only [Route.Render, Exec.bind_eq, Exec.pure_eq, Outcome.deref, checkNotNil,
    Exec.bind_lift_ok, Exec.bind_lift_fatal, Exec.bind_lift_panic, Exec.bind_lift_error,
    Exec.fail, Exec.bind_call, Exec.bind_after]

/-- A failed wait for the NAT gateway ends `Render` with the wait's error. -/
theorem render_wait_error (cloud : AWSCloud) (a changes : Option Route)
    (name lifecycle : Option String) (rid cidr : String) (ng : NatGateway) (err : GoError)
    (hw : cloud.waitAvailable ng = some err) :
    Route.Render cloud a
        (some ⟨name, lifecycle, some ⟨some rid⟩, some cidr, none, some ng⟩) changes =
      Exec.after [Call.waitAvailable ng] (Exec.lift (Outcome.error err)) := by
  cases a <;> simp only [Route.Render, Exec.bind_eq, Exec.pure_eq, Outcome.deref, checkNotNil,
    Exec.bind_lift_ok, Exec.bind_lift_fatal, Exec.bind_lift_panic, Exec.bind_lift_error,
    Exec.fail, Exec.bind_call, Exec.bind_after, hw]

/-- After a successful wait `checkNotNil` stops `Render` when the NAT
gateway has no ID. -/
theorem render_nat_no_id (cloud : AWSCloud) (a changes : Option Route)
    (name lifecycle : Option String) (rid cidr : String)
    (hw : cloud.waitAvailable ⟨none⟩ = none) :
    Route.Render cloud a
        (some ⟨name, lifecycle, some ⟨some rid⟩, some cidr, none, some ⟨none⟩⟩) changes =
      Exec.after [Call.waitAvailable ⟨none⟩]
        (Exec.lift (Outcome.fatal "string pointer was unexpectedly nil")) := by
  cases a <;> simp only [Route.Render, Exec.bind_eq, Exec.pure_eq, Outcome.deref, checkNotNil,
    Exec.bind_lift_ok, Exec.bind_lift_fatal, Exec.bind_lift_panic, Exec.bind_lift_error,
    Exec.fail, Exec.bind_call, Exec.bind_after, hw]

/-- Creation through an internet gateway with all identifiers set. -/
theorem render_create_ig (cloud : AWSCloud) (changes : Option Route)
    (name lifecycle : Option String) (rid cidr gid : String) (ng : Option NatGateway) :
    Route.Render cloud none
        (some ⟨name, lifecycle, some ⟨some rid⟩, some cidr, some ⟨some gid⟩, ng⟩) changes =
      Exec.after [Call.createRoute ⟨some rid, some cidr, some gid, none⟩]
        (Exec.lift (Route.Render.createResult
          (cloud.CreateRoute ⟨some rid, some cidr, some gid, none⟩))) := by
  simp only [Route.Render, Exec.bind_eq, Exec.pure_eq, Outcome.deref, checkNotNil,
    Exec.bind_lift_ok, Exec.bind_lift_fatal, Exec.bind_lift_panic, Exec.bind_lift_error,
    Exec.fail, Exec.bind_call, Exec.bind_after]
  generalize cloud.CreateRoute _ = answer
  rcases answer with ⟨_ | response, _ | err⟩ <;>
    simp only [Exec.bind_lift_ok, Exec.bind_lift_panic, Route.Render.createResult]
  cases aws.BoolValue response.Return <;> simp

/-- Creation through a NAT gateway that became available, all identifiers
set. -/
theorem render_create_nat (cloud : AWSCloud) (changes : Option Route)
    (name lifecycle : Option String) (rid cidr nid : String)
    (hw : cloud.waitAvailable ⟨some nid⟩ = none) :
    Route.Render cloud none
        (some ⟨name, lifecycle, some ⟨some rid⟩, some cidr, none, some ⟨some nid⟩⟩)
        changes =
      Exec.after
        [Call.waitAvailable ⟨some nid⟩, Call.createRoute ⟨some rid, some cidr, none, some nid⟩]
        (Exec.lift (Route.Render.createResult
          (cloud.CreateRoute ⟨some rid, some cidr, none, some nid⟩))) := by
  simp only [Route.Render, Exec.bind_eq, Exec.pure_eq, Outcome.deref, checkNotNil,
    Exec.bind_lift_ok, Exec.bind_lift_fatal, Exec.bind_lift_panic, Exec.bind_lift_error,
    Exec.fail, Exec.bind_call, Exec.bind_after, hw]
  generalize cloud.CreateRoute _ = answer
  rcases answer with ⟨_ | response, _ | err⟩ <;>
    simp only [Exec.bind_lift_ok, Exec.bind_lift_panic, Route.Render.createResult,
      Exec.after_after, List.singleton_append]
  cases aws.BoolValue response.Return <;> simp

/-- Update through an internet gateway with all identifiers set. -/
theorem render_replace_ig (cloud : AWSCloud) (a : Route) (changes : Option Route)
    (name lifecycle : Option String) (rid cidr gid : String) (ng : Option NatGateway) :
    Route.Render cloud (some a)
        (some ⟨name, lifecycle, some ⟨some rid⟩, some cidr, some ⟨some gid⟩, ng⟩) changes =
      Exec.after [Call.replaceRoute ⟨some rid, some cidr, some gid, none⟩]
        (Exec.lift (Route.Render.replaceResult
          (cloud.ReplaceRoute ⟨some rid, some cidr, some gid, none⟩))) := by
  simp only [Route.Render, Exec.bind_eq, Exec.pure_eq, Outcome.deref, checkNotNil,
    Exec.bind_lift_ok, Exec.bind_lift_fatal, Exec.bind_lift_panic, Exec.bind_lift_error,
    Exec.fail, Exec.bind_call, Exec.bind_after]
  generalize cloud.ReplaceRoute _ = answer
  rcases answer with ⟨response, _ | err⟩ <;>
    simp only [Exec.bind_lift_ok, Exec.bind_lift_panic, Route.Render.replaceResult]

/-- Update through a NAT gateway that became available, all identifiers
set. -/
theorem render_replace_nat (cloud : AWSCloud) (a : Route) (changes : Option Route)
    (name lifecycle : Option String) (rid cidr nid : String)
    (hw : cloud.waitAvailable ⟨some nid⟩ = none) :
    Route.Render cloud (some a)
        (some ⟨name, lifecycle, some ⟨some rid⟩, some cidr, none, some ⟨some nid⟩⟩)
        changes =
      Exec.after
        [Call.waitAvailable ⟨some nid⟩, Call.replaceRoute ⟨some rid, some cidr, none, some nid⟩]
        (Exec.lift (Route.Render.replaceResult
          (cloud.ReplaceRoute ⟨some rid, some cidr, none, some nid⟩))) := by
  simp only [Route.Render, Exec.bind_eq, Exec.pure_eq, Outcome.deref, checkNotNil,
    Exec.bind_lift_ok, Exec.bind_lift_fatal, Exec.bind_lift_panic, Exec.bind_lift_error,
    Exec.fail, Exec.bind_call, Exec.bind_after, hw]
  generalize cloud.ReplaceRoute _ = answer
  rcases answer with ⟨response, _ | err⟩ <;>
    simp only [Exec.bind_lift_ok, Exec.bind_lift_panic, Route.Render.replaceResult,
      Exec.after_after, List.singleton_append]

/-- Shape of a run of `Render`: no call at all; or a wait that failed, or
succeeded for a NAT gateway without ID, and nothing else; or one mutating
call carrying the internet gateway; or a successful wait followed by one
mutating call carrying the NAT gateway. -/
theorem render_shape (cloud : AWSCloud) (a : Option Route) (e : Route)
    (changes : Option Route) :
    (Route.Render cloud a (some e) changes).trace = [] ∨
    (∃ ng, e.InternetGateway = none ∧ e.NatGateway = some ng ∧
      (Route.Render cloud a (some e) changes).trace = [Call.waitAvailable ng] ∧
      ((∃ err, cloud.waitAvailable ng = some err ∧
          (Route.Render cloud a (some e) changes).out = Outcome.error err) ∨
        (cloud.waitAvailable ng = none ∧ ng.ID = none))) ∨
    (∃ ig gid c, e.InternetGateway = some ig ∧ ig.ID = some gid ∧
      (Route.Render cloud a (some e) changes).trace = [c] ∧
      c.isMutating = true ∧ c.gatewayId = some gid ∧ c.natGatewayId = none) ∨
    (∃ ng nid c, e.InternetGateway = none ∧ e.NatGateway = some ng ∧ ng.ID = some nid ∧
      cloud.waitAvailable ng = none ∧
      (Route.Render cloud a (some e) changes).trace = [Call.waitAvailable ng, c] ∧
      c.isMutating = true ∧ c.gatewayId = none ∧ c.natGatewayId = some nid) := by
  obtain ⟨name, lifecycle, rt, c, ig, ng⟩ := e
  rcases rt with _ | ⟨_ | rid⟩
  · exact Or.inl (by rw [render_no_rt]; rfl)
  · exact Or.inl (by rw [render_no_rt_id]; rfl)
  rcases c with _ | cidr
  · exact Or.inl (by rw [render_no_cidr]; rfl)
  rcases ig with _ | ⟨_ | gid⟩
  · rcases ng with _ | ng
    · exact Or.inl (by rw [render_no_target]; rfl)
    · rcases hw : cloud.waitAvailable ng with _ | err
      · obtain ⟨_ | nid⟩ := ng
        · refine Or.inr (Or.inl ⟨⟨none⟩, rfl, rfl, ?_, Or.inr ⟨hw, rfl⟩⟩)
          rw [render_nat_no_id _ _ _ _ _ _ _ hw, Exec.after_lift_trace]
        · refine Or.inr (Or.inr (Or.inr ?_))
          rcases a with _ | a
          · exact ⟨⟨some nid⟩, nid, Call.createRoute ⟨some rid, some cidr, none, some nid⟩,
              rfl, rfl, rfl, hw,
              by rw [render_create_nat _ _ _ _ _ _ _ hw, Exec.after_lift_trace], rfl, rfl, rfl⟩
          · exact ⟨⟨some nid⟩, nid, Call.replaceRoute ⟨some rid, some cidr, none, some nid⟩,
              rfl, rfl, rfl, hw,
              by rw [render_replace_nat _ _ _ _ _ _ _ _ hw, Exec.after_lift_trace],
              rfl, rfl, rfl⟩
      · refine Or.inr (Or.inl ⟨ng, rfl, rfl, ?_, Or.inl ⟨err, hw, ?_⟩⟩)
        · rw [render_wait_error _ _ _ _ _ _ _ _ _ hw, Exec.after_lift_trace]
        · rw [render_wait_error _ _ _ _ _ _ _ _ _ hw, Exec.after_lift_out]
  · exact Or.inl (by rw [render_ig_no_id]; rfl)
  · refine Or.inr (Or.inr (Or.inl ?_))
    rcases a with _ | a
    · exact ⟨⟨some gid⟩, gid, Call.createRoute ⟨some rid, some cidr, some gid, none⟩,
        rfl, rfl, by rw [render_create_ig, Exec.after_lift_trace], rfl, rfl, rfl⟩
    · exact ⟨⟨some gid⟩, gid, Call.replaceRoute ⟨some rid, some cidr, some gid, none⟩,
        rfl, rfl, by rw [render_replace_ig, Exec.after_lift_trace], rfl, rfl, rfl⟩

/-- Claim C5. With `RouteTable.ID`, `CIDR` and the identifier of the chosen
target set in `e` (the internet gateway when one is set, else the NAT
gateway, whose wait then succeeds), the mutating calls of `Render` are
exactly one `CreateRoute` when `a` is absent and exactly one `ReplaceRoute`
when `a` is present, for every `changes` (so also every non-empty one); the
request carries `e.RouteTable.ID` and `e.CIDR`. -/
theorem C5_render_call_selection (cloud : AWSCloud) (e : Route) (changes : Option Route)
    (routeTable : RouteTable) (id cidr : String)
    (hrt : e.RouteTable = some routeTable) (hid : routeTable.ID = some id)
    (hcidr : e.CIDR = some cidr)
    (htarget :
      (∃ ig gid, e.InternetGateway = some ig ∧ ig.ID = some gid) ∨
      (∃ ng nid, e.InternetGateway = none ∧ e.NatGateway = some ng ∧ ng.ID = some nid ∧
        cloud.waitAvailable ng = none)) :
    (∃ request : CreateRouteInput,
      (Route.Render cloud none (some e) changes).trace.filter Call.isMutating =
        [Call.createRoute request] ∧
      request.RouteTableId = routeTable.ID ∧ request.DestinationCidrBlock = e.CIDR) ∧
    (∀ a : Route, ∃ request : ReplaceRouteInput,
      (Route.Render cloud (some a) (some e) changes).trace.filter Call.isMutating =
        [Call.replaceRoute request] ∧
      request.RouteTableId = routeTable.ID ∧ request.DestinationCidrBlock = e.CIDR) := by
  obtain ⟨name, lifecycle, rt, c, ig, ng⟩ := e
  simp only at hrt hcidr htarget
  subst hrt hcidr
  obtain ⟨rid⟩ := routeTable
  simp only at hid
  subst hid
  rcases htarget with ⟨⟨gid0⟩, gid, h1, h2⟩ | ⟨⟨nid0⟩, nid, h1, h2, h3, h4⟩
  · simp only at h2
    subst h1 h2
    refine ⟨⟨⟨some id, some cidr, some gid, none⟩, ?_, rfl, rfl⟩,
      fun a => ⟨⟨some id, some cidr, some gid, none⟩, ?_, rfl, rfl⟩⟩
    · rw [render_create_ig, Exec.after_lift_trace]; rfl
    · rw [render_replace_ig, Exec.after_lift_trace]; rfl
  · simp only at h3
    subst h1 h2 h3
    refine ⟨⟨⟨some id, some cidr, none, some nid⟩, ?_, rfl, rfl⟩,
      fun a => ⟨⟨some id, some cidr, none, some nid⟩, ?_, rfl, rfl⟩⟩
    · rw [render_create_nat _ _ _ _ _ _ _ h4, Exec.after_lift_trace]; rfl
    · rw [render_replace_nat _ _ _ _ _ _ _ _ h4, Exec.after_lift_trace]; rfl

/-- Witness of C5 at a route through NAT gateway `nat-1`. -/
theorem C5_render_call_selection_witness :
    ∃ request : CreateRouteInput,
      (Route.Render (Examples.cloudWith []) none (some Examples.routeNat)
          none).trace.filter Call.isMutating = [Call.createRoute request] ∧
      request.RouteTableId = some "rtb-1" ∧
      request.DestinationCidrBlock = some "10.0.0.0/16" :=
  (C5_render_call_selection (Examples.cloudWith []) Examples.routeNat none
    (RouteTable.mk (some "rtb-1")) "rtb-1" "10.0.0.0/16" rfl rfl rfl
    (Or.inr ⟨NatGateway.mk (some "nat-1"), "nat-1", rfl, rfl, rfl, rfl⟩)).1

/-- Claim C6. In every run of `Render`, a `CreateRoute` or `ReplaceRoute`
call whose request carries a `NatGatewayId` comes after a `waitAvailable`
call for the NAT gateway of `e` (whose ID the request carries) that returned
no error; and if a `waitAvailable` call returns an error, `Render` returns
that error and makes no mutating call. -/
theorem C6_render_wait_before_nat_call (cloud : AWSCloud) (a : Option Route) (e : Route)
    (changes : Option Route) :
    (∀ pre c post, (Route.Render cloud a (some e) changes).trace = pre ++ c :: post →
      c.isMutating = true → c.natGatewayId ≠ none →
      ∃ ng, e.NatGateway = some ng ∧ c.natGatewayId = ng.ID ∧
        Call.waitAvailable ng ∈ pre ∧ cloud.waitAvailable ng = none) ∧
    (∀ ng err, Call.waitAvailable ng ∈ (Route.Render cloud a (some e) changes).trace →
      cloud.waitAvailable ng = some err →
      (Route.Render cloud a (some e) changes).out = Outcome.error err ∧
      ∀ c ∈ (Route.Render cloud a (some e) changes).trace, c.isMutating = false) := by
  rcases render_shape cloud a e changes with h | ⟨ng, _, hng, ht, hw⟩ |
    ⟨ig, gid, c, _, _, ht, hm, hg, hn⟩ | ⟨ng, nid, c, _, hng, hid, hw, ht, hm, hg, hn⟩
  · rw [h]
    exact ⟨fun pre c post hp => by simp at hp, fun ng err hmem => by simp at hmem⟩
  · rw [ht]
    refine ⟨fun pre c post hp hmut => ?_, fun ng2 err hmem hw2 => ?_⟩
    · rcases pre with _ | ⟨p, pre⟩
      · simp only [List.nil_append, List.cons.injEq] at hp
        rw [← hp.1] at hmut
        simp [Call.isMutating] at hmut
      · simp at hp
    · simp only [List.mem_singleton, Call.waitAvailable.injEq] at hmem
      subst hmem
      rcases hw with ⟨err2, hw3, hout⟩ | ⟨hw3, _⟩
      · rw [hw3] at hw2
        injection hw2 with hw2
        subst hw2
        exact ⟨hout, fun c hc => by
          simp only [List.mem_singleton] at hc
          subst hc
          rfl⟩
      · rw [hw3] at hw2
        exact Option.noConfusion hw2
  · rw [ht]
    refine ⟨fun pre c2 post hp hmut hnat => ?_, fun ng2 err hmem hw2 => ?_⟩
    · rcases pre with _ | ⟨p, pre⟩
      · simp only [List.nil_append, List.cons.injEq] at hp
        rw [← hp.1, hn] at hnat
        exact absurd rfl hnat
      · simp at hp
    · simp only [List.mem_singleton] at hmem
      rw [← hmem] at hm
      simp [Call.isMutating] at hm
  · rw [ht]
    refine ⟨fun pre c2 post hp hmut hnat => ?_, fun ng2 err hmem hw2 => ?_⟩
    · rcases pre with _ | ⟨p, _ | ⟨q, pre⟩⟩
      · simp only [List.nil_append, List.cons.injEq] at hp
        rw [← hp.1] at hmut
        simp [Call.isMutating] at hmut
      · simp only [List.cons_append, List.nil_append, List.cons.injEq] at hp
        refine ⟨ng, hng, ?_, ?_, hw⟩
        · rw [← hp.2.1, hn, hid]
        · rw [← hp.1]
          simp
      · simp at hp
    · simp only [List.mem_cons, Call.waitAvailable.injEq, List.mem_singleton,
        List.not_mem_nil, or_false] at hmem
      rcases hmem with hmem | hmem
      · subst hmem
        rw [hw] at hw2
        exact Option.noConfusion hw2
      · rw [← hmem] at hm
        simp [Call.isMutating] at hm

/-- The result of the creation path is success exactly for an answer without
transport error whose `Return` flag is true. -/
theorem createResult_ok_iff (answer : Option CreateRouteOutput × Option GoError) :
    Route.Render.createResult answer = Outcome.ok () ↔
      ∃ response, answer = (some response, none) ∧ response.Return = some true := by
  rcases answer with ⟨_ | ⟨_ | _ | _⟩, _ | err⟩ <;>
    simp [Route.Render.createResult, aws.BoolValue]

/-- Claim C7. On the creation path with `RouteTable.ID`, `CIDR` and the ID
of the chosen target set (and the wait for a NAT gateway succeeded),
`Render` issues a `CreateRoute` request and returns success exactly when the
answer has no transport error and a response whose `Return` flag is true; a
transport error gives the error "error creating Route: ..." and a response
whose `Return` is false or unset gives the error "create Route request
failed: ...". -/
theorem C7_render_create_result (cloud : AWSCloud) (e : Route) (changes : Option Route)
    (routeTable : RouteTable) (id cidr : String)
    (hrt : e.RouteTable = some routeTable) (hid : routeTable.ID = some id)
    (hcidr : e.CIDR = some cidr)
    (htarget :
      (∃ ig gid, e.InternetGateway = some ig ∧ ig.ID = some gid) ∨
      (∃ ng nid, e.InternetGateway = none ∧ e.NatGateway = some ng ∧ ng.ID = some nid ∧
        cloud.waitAvailable ng = none)) :
    ∃ request : CreateRouteInput,
      Call.createRoute request ∈ (Route.Render cloud none (some e) changes).trace ∧
      ((Route.Render cloud none (some e) changes).out = Outcome.ok () ↔
        ∃ response, cloud.CreateRoute request = (some response, none) ∧
          response.Return = some true) ∧
      (∀ response err, cloud.CreateRoute request = (response, some err) →
        (Route.Render cloud none (some e) changes).out =
          Outcome.error (GoError.errorfErr "error creating Route: %v" err)) ∧
      (∀ response, cloud.CreateRoute request = (some response, none) →
        response.Return ≠ some true →
        (Route.Render cloud none (some e) changes).out =
          Outcome.error
            (GoError.errorfResp "create Route request failed: %v" response)) := by
  obtain ⟨name, lifecycle, rt, c, ig, ng⟩ := e
  simp only at hrt hcidr htarget
  subst hrt hcidr
  obtain ⟨rid⟩ := routeTable
  simp only at hid
  subst hid
  have key : ∀ (request : CreateRouteInput) (t : List Call),
      Call.createRoute request ∈ t →
      Route.Render cloud none
          (some ⟨name, lifecycle, some ⟨some id⟩, some cidr, ig, ng⟩) changes =
        Exec.after t (Exec.lift (Route.Render.createResult (cloud.CreateRoute request))) →
      Call.createRoute request ∈
          (Route.Render cloud none
            (some ⟨name, lifecycle, some ⟨some id⟩, some cidr, ig, ng⟩) changes).trace ∧
      ((Route.Render cloud none
            (some ⟨name, lifecycle, some ⟨some id⟩, some cidr, ig, ng⟩) changes).out =
          Outcome.ok () ↔
        ∃ response, cloud.CreateRoute request = (some response, none) ∧
          response.Return = some true) ∧
      (∀ response err, cloud.CreateRoute request = (response, some err) →
        (Route.Render cloud none
            (some ⟨name, lifecycle, some ⟨some id⟩, some cidr, ig, ng⟩) changes).out =
          Outcome.error (GoError.errorfErr "error creating Route: %v" err)) ∧
      (∀ response, cloud.CreateRoute request = (some response, none) →
        response.Return ≠ some true →
        (Route.Render cloud none
            (some ⟨name, lifecycle, some ⟨some id⟩, some cidr, ig, ng⟩) changes).out =
          Outcome.error
            (GoError.errorfResp "create Route request failed: %v" response)) := by
    intro request t hmem heq
    rw [heq, Exec.after_lift_trace, Exec.after_lift_out]
    refine ⟨hmem, createResult_ok_iff _, ?_, ?_⟩
    · intro response err h
      rw [h]
      cases response <;> rfl
    · intro response h hne
      rw [h]
      obtain ⟨ret⟩ := response
      rcases ret with _ | _ | _
      · rfl
      · rfl
      · exact absurd rfl hne
  rcases htarget with ⟨⟨gid0⟩, gid, h1, h2⟩ | ⟨⟨nid0⟩, nid, h1, h2, h3, h4⟩
  · simp only at h2
    subst h1 h2
    exact ⟨⟨some id, some cidr, some gid, none⟩,
      key _ _ (List.mem_singleton.mpr rfl) (render_create_ig _ _ _ _ _ _ _ _)⟩
  · simp only at h3
    subst h1 h2 h3
    exact ⟨⟨some id, some cidr, none, some nid⟩,
      key _ [Call.waitAvailable ⟨some nid⟩, Call.createRoute ⟨some id, some cidr, none, some nid⟩]
        (by simp) (render_create_nat _ _ _ _ _ _ _ h4)⟩

/-- Witness of C7 at a cloud that answers `Return = false`: `Render` does
not succeed. -/
theorem C7_render_create_result_witness :
    ∃ request : CreateRouteInput,
      Call.createRoute request ∈
        (Route.Render Examples.cloudRefusing none (some Examples.routeNat) none).trace ∧
      (Route.Render Examples.cloudRefusing none (some Examples.routeNat) none).out =
        Outcome.error (GoError.errorfResp "create Route request failed: %v"
          (CreateRouteOutput.mk (some false))) := by
  obtain ⟨request, hmem, _, _, hfail⟩ :=
    C7_render_create_result Examples.cloudRefusing Examples.routeNat none
      (RouteTable.mk (some "rtb-1")) "rtb-1" "10.0.0.0/16" rfl rfl rfl
      (Or.inr ⟨NatGateway.mk (some "nat-1"), "nat-1", rfl, rfl, rfl, rfl⟩)
  exact ⟨request, hmem, hfail (CreateRouteOutput.mk (some false)) rfl (by decide)⟩

/-- Claim C10 as stated fails: `e` sets neither target, and `Render` does
not return "missing target for route"; `checkNotNil` ends the run on the nil
`RouteTable.ID` before the targets are looked at. -/
theorem C10_render_no_target_counterexample :
    Examples.routeNoTargetNoId.InternetGateway = none ∧
    Examples.routeNoTargetNoId.NatGateway = none ∧
    Route.Render (Examples.cloudWith []) none (some Examples.routeNoTargetNoId) none =
      { trace := [], out := Outcome.fatal "string pointer was unexpectedly nil" } ∧
    (Route.Render (Examples.cloudWith []) none (some Examples.routeNoTargetNoId) none).out ≠
      Outcome.error (GoError.errorf "missing target for route") := by
  refine ⟨rfl, rfl, rfl, ?_⟩
  intro h
  have h2 : (Route.Render (Examples.cloudWith []) none
      (some Examples.routeNoTargetNoId) none).out =
      Outcome.fatal "string pointer was unexpectedly nil" := rfl
  rw [h2] at h
  exact Outcome.noConfusion h

/-- Claim C10, amended. For every input, on the create and the replace
path: each `CreateRoute` / `ReplaceRoute` request that `Render` issues has
exactly one of `GatewayId` and `NatGatewayId` set; when `e` sets both
targets the request carries the internet gateway's ID and no `NatGatewayId`,
and no wait for the NAT gateway happens; when `e` sets neither target
`Render` makes no cloud call, and it returns "missing target for route"
provided `e.RouteTable.ID` and `e.CIDR` are set. -/
theorem C10_render_one_target (cloud : AWSCloud) (a : Option Route) (e : Route)
    (changes : Option Route) :
    (∀ c ∈ (Route.Render cloud a (some e) changes).trace, c.isMutating = true →
      (c.gatewayId ≠ none ∧ c.natGatewayId = none) ∨
      (c.gatewayId = none ∧ c.natGatewayId ≠ none)) ∧
    (∀ ig ng, e.InternetGateway = some ig → e.NatGateway = some ng →
      (∀ c ∈ (Route.Render cloud a (some e) changes).trace, c.isMutating = true →
        c.gatewayId = ig.ID ∧ c.natGatewayId = none) ∧
      (∀ n, Call.waitAvailable n ∉ (Route.Render cloud a (some e) changes).trace)) ∧
    (e.InternetGateway = none → e.NatGateway = none →
      (Route.Render cloud a (some e) changes).trace = [] ∧
      (∀ routeTable, e.RouteTable = some routeTable → routeTable.ID ≠ none →
        e.CIDR ≠ none →
        (Route.Render cloud a (some e) changes).out =
          Outcome.error (GoError.errorf "missing target for route"))) := by
  refine ⟨?_, ?_, ?_⟩
  · rcases render_shape cloud a e changes with h | ⟨ng, _, hng, ht, hw⟩ |
      ⟨ig, gid, c, _, _, ht, hm, hg, hn⟩ | ⟨ng, nid, c, _, hng, hid, hw, ht, hm, hg, hn⟩
    · rw [h]
      intro c hc
      simp at hc
    · rw [ht]
      intro c hc hmut
      simp only [List.mem_singleton] at hc
      subst hc
      simp [Call.isMutating] at hmut
    · rw [ht]
      intro c2 hc hmut
      simp only [List.mem_singleton] at hc
      subst hc
      exact Or.inl ⟨by rw [hg]; simp, hn⟩
    · rw [ht]
      intro c2 hc hmut
      simp only [List.mem_cons, List.mem_singleton, List.not_mem_nil, or_false] at hc
      rcases hc with hc | hc
      · subst hc
        simp [Call.isMutating] at hmut
      · subst hc
        exact Or.inr ⟨hg, by rw [hn]; simp⟩
  · intro ig0 ng0 hig0 hng0
    rcases render_shape cloud a e changes with h | ⟨ng, hig, hng, ht, hw⟩ |
      ⟨ig, gid, c, hig, hid, ht, hm, hg, hn⟩ | ⟨ng, nid, c, hig, hng, hid, hw, ht, hm, hg, hn⟩
    · rw [h]
      exact ⟨fun c hc => by simp at hc, fun n hn => by simp at hn⟩
    · rw [hig] at hig0
      exact Option.noConfusion hig0
    · rw [ht]
      rw [hig] at hig0
      injection hig0 with hig0
      subst hig0
      refine ⟨fun c2 hc hmut => ?_, fun n hmem => ?_⟩
      · simp only [List.mem_singleton] at hc
        subst hc
        exact ⟨by rw [hg, hid], hn⟩
      · simp only [List.mem_singleton] at hmem
        rw [← hmem] at hm
        simp [Call.isMutating] at hm
    · rw [hig] at hig0
      exact Option.noConfusion hig0
  · intro hig hng
    obtain ⟨name, lifecycle, rt, c, ig, ng⟩ := e
    simp only at hig hng
    subst hig hng
    constructor
    · rcases rt with _ | ⟨_ | rid⟩
      · rw [render_no_rt]; rfl
      · rw [render_no_rt_id]; rfl
      rcases c with _ | cidr
      · rw [render_no_cidr]; rfl
      · rw [render_no_target]; rfl
    · intro routeTable hrt hid hcidr
      simp only at hrt hcidr
      subst hrt
      obtain ⟨_ | rid⟩ := routeTable
      · exact absurd rfl hid
      rcases c with _ | cidr
      · exact absurd rfl hcidr
      · rw [render_no_target]; rfl

/-- Instance of the amended C10 at a route without target on the update
path: no cloud call, and the error "missing target for route". -/
theorem C10_render_one_target_witness :
    (Route.Render (Examples.cloudWith []) (some Examples.routeIgw)
        (some Examples.routeNoTarget) none).trace = [] ∧
    (Route.Render (Examples.cloudWith []) (some Examples.routeIgw)
        (some Examples.routeNoTarget) none).out =
      Outcome.error (GoError.errorf "missing target for route") :=
  ⟨((C10_render_one_target (Examples.cloudWith []) (some Examples.routeIgw)
      Examples.routeNoTarget none).2.2 rfl rfl).1,
   ((C10_render_one_target (Examples.cloudWith []) (some Examples.routeIgw)
      Examples.routeNoTarget none).2.2 rfl rfl).2
      (RouteTable.mk (some "rtb-1")) rfl (by decide) (by decide)⟩

/-- Instance of C6 at a cloud whose wait fails: `Render` returns the wait's
error and its trace holds no mutating call. -/
theorem C6_render_wait_before_nat_call_witness :
    (Route.Render Examples.cloudWaitFails none (some Examples.routeNat) none).out =
      Outcome.error (GoError.foreign "ResourceNotReady: exceeded wait attempts") ∧
    ∀ c ∈ (Route.Render Examples.cloudWaitFails none (some Examples.routeNat) none).trace,
      c.isMutating = false :=
  (C6_render_wait_before_nat_call Examples.cloudWaitFails none Examples.routeNat none).2
    (NatGateway.mk (some "nat-1"))
    (GoError.foreign "ResourceNotReady: exceeded wait attempts")
    (by decide) rfl

/-- Instance of C9 at a route through one NAT gateway: `CheckChanges`
succeeds. -/
theorem C9_checkChanges_create_required_witness :
    Route.CheckChanges none (some Examples.routeNat) none = Outcome.ok () :=
  (C9_checkChanges_create_required Examples.routeNat none).2.2.mpr
    ⟨by decide, by decide, Or.inr ⟨rfl, by decide⟩⟩

/-! ## `GetApiIngressStatus` -/

/-- Claim C8 at its failing input: the cluster resolves to the AWS backend,
the lookup for "api." + cluster name returns no load balancer together with
an error, and `GetApiIngressStatus` returns `(nil, nil)`: no error. -/
theorem C8_getApiIngressStatus_swallows_error :
    GetApiIngressStatus Examples.buildFailingAws (Cluster.mk "k.example.com") =
      ([], none) := by
  rfl

end Kops
